import Mathlib

/-!
Shallow embedding of the healthcare eligibility extraction program
(`src/src/edi271_parser.py`) and proofs about its specification.

Strings are modelled over their character lists; all splitting, trimming and
case-mapping helpers are written by structural recursion so that every
definition reduces inside the kernel.  The model is faithful for ASCII input
(Python's `str.isdigit`, `str.strip`, `str.upper` additionally handle exotic
Unicode classes that no segment grammar here produces).
-/

set_option maxRecDepth 100000

namespace EDI271

/-- Output record built by the extraction pass: the `EligibilityResponse`
dataclass (source lines 24-48).  All nineteen fields are strings; defaults are
empty except `mental_health_covered` and `status`.  `__post_init__` stamps
`created_at` with the construction time; that timestamp is environment
dependent and is modelled as a plain string field left empty by default. -/
structure EligibilityResponse where
  transaction_id : String := ""
  response_date : String := ""
  payer_name : String := ""
  provider_name : String := ""
  provider_npi : String := ""
  subscriber_name : String := ""
  member_id : String := ""
  group_number : String := ""
  employer : String := ""
  address : String := ""
  date_of_birth : String := ""
  gender : String := ""
  plan_name : String := ""
  individual_deductible : String := ""
  individual_deductible_met : String := ""
  preventative_care_copay : String := ""
  mental_health_covered : String := "Not specified"
  status : String := "Active"
  created_at : String := ""
  deriving DecidableEq

/-- Fresh record as produced by `EligibilityResponse()` in the source. -/
def defaultResponse : EligibilityResponse := {}

/-- Python `str.split(sep)` for a one-character separator, on character
lists: `"".split(c)` is `[""]`, separators at the ends produce empty pieces. -/
def splitChar (c : Char) : List Char → List (List Char)
  | [] => [[]]
  | a :: rest =>
    match splitChar c rest with
    | [] => if a = c then [[], []] else [[a]]
    | h :: t => if a = c then [] :: h :: t else (a :: h) :: t

/-- Python `str.split(sep)` on strings. -/
def pySplit (c : Char) (s : String) : List String :=
  (splitChar c s.toList).map String.mk

/-- Python `str.strip()` (ASCII whitespace). -/
def pyStrip (s : String) : String :=
  String.mk (((s.toList.dropWhile Char.isWhitespace).reverse.dropWhile
    Char.isWhitespace).reverse)

/-- Python `str.upper()` (ASCII letters). -/
def pyUpper (s : String) : String :=
  String.mk (s.toList.map Char.toUpper)

/-- First list is a prefix of the second. -/
def startsWith : List Char → List Char → Bool
  | [], _ => true
  | _ :: _, [] => false
  | a :: s, b :: t => a = b && startsWith s t

/-- `sub` occurs contiguously inside `l`. -/
def containsList (sub : List Char) : List Char → Bool
  | [] => sub.isEmpty
  | a :: rest => startsWith sub (a :: rest) || containsList sub rest

/-- Python `sub in s` substring test. -/
def strContains (s sub : String) : Bool :=
  containsList sub.toList s.toList

/-- Character membership in a character list. -/
def charMem (c : Char) : List Char → Bool
  | [] => false
  | a :: rest => a = c || charMem c rest

/-- Python `c in s` membership test for a single character. -/
def charIn (s : String) (c : Char) : Bool :=
  charMem c s.toList

/-- Python `str.zfill(w)`: pad on the left with zeros up to width `w`, keeping
a leading sign character in front of the padding. -/
def pyZfill (w : Nat) (s : String) : String :=
  if w ≤ s.length then s
  else
    match s.toList with
    | '+' :: rest => String.mk ('+' :: (List.replicate (w - s.length) '0' ++ rest))
    | '-' :: rest => String.mk ('-' :: (List.replicate (w - s.length) '0' ++ rest))
    | l => String.mk (List.replicate (w - s.length) '0' ++ l)

/-- The guard on source line 312:
`amount and amount.replace('.', '').replace('-', '').isdigit()` — drop every
dot and minus sign, then require a nonempty all-digit remainder (and a
nonempty `amount` for truthiness). -/
def numericAmount (s : String) : Bool :=
  let t := s.toList.filter (fun c => !(c = '.' || c = '-'))
  !(s == "") && (!t.isEmpty && t.all Char.isDigit)

/-- Signed decimal value: `neg` records the sign character of the literal
(Python keeps a negative zero), the magnitude is `num / 10 ^ exp`. -/
structure PyDec where
  neg : Bool
  num : Nat
  exp : Nat
  deriving DecidableEq

/-- Numeric value of an all-digit character list. -/
def digitsToNat (l : List Char) : Nat :=
  l.foldl (fun a c => 10 * a + (c.toNat - 48)) 0

/-- Python `float(s)` restricted to sign/digit/dot literals, which is the
complete set of strings reachable behind the `numericAmount` guard (that guard
rejects letters, spaces and underscores, so exponents, `inf`/`nan` and grouped
literals never reach the conversion).  Returns `none` exactly where `float`
raises `ValueError`: more than one dot, a sign not in front, or no digit at
all.  Magnitudes are exact rationals; the double-precision limit of the source
(overflow to infinity beyond roughly 10^308) is idealised away, which no claim
exercises. -/
def pyFloat (s : String) : Option PyDec :=
  let l := s.toList
  let sgn : Bool × List Char :=
    match l with
    | '-' :: rest => (true, rest)
    | '+' :: rest => (false, rest)
    | _ => (false, l)
  match splitChar '.' sgn.2 with
  | [ip] =>
    if !ip.isEmpty && ip.all Char.isDigit then some ⟨sgn.1, digitsToNat ip, 0⟩
    else none
  | [ip, fp] =>
    if (ip.all Char.isDigit && fp.all Char.isDigit) && !(ip.isEmpty && fp.isEmpty) then
      some ⟨sgn.1, digitsToNat ip * 10 ^ fp.length + digitsToNat fp, fp.length⟩
    else none
  | _ => none

/-- Round `n / d` to the nearest integer, ties to even. -/
def roundHalfEven (n d : Nat) : Nat :=
  let q := n / d
  let r := n % d
  if 2 * r < d then q
  else if d < 2 * r then q + 1
  else if q % 2 = 0 then q else q + 1

/-- Magnitude of a decimal in whole cents, rounded half-to-even as `%.2f`
formatting does.  The source rounds the nearest IEEE double instead of the
exact decimal; the two agree on every amount with at most two fractional
digits, which covers all inputs the claims exercise. -/
def PyDec.cents (x : PyDec) : Nat :=
  if x.exp ≤ 2 then x.num * 10 ^ (2 - x.exp)
  else roundHalfEven x.num (10 ^ (x.exp - 2))

/-- Insert a comma after every three characters of a reversed digit list. -/
def commaChunks : List Char → List Char
  | a :: b :: c :: d :: rest => a :: b :: c :: ',' :: commaChunks (d :: rest)
  | l => l

/-- Python `f"{n:,}"` for a natural number: thousands separators. -/
def groupThousands (n : Nat) : String :=
  String.mk (commaChunks (Nat.toDigits 10 n).reverse).reverse

/-- Two-digit rendering of a cents remainder below 100. -/
def padCents (c : Nat) : String :=
  if c < 10 then "0" ++ toString c else toString c

/-- The expression `f"${float(amount):,.2f}"` (source lines 313 and 344):
dollar sign, sign of the literal, grouped dollars, dot, two cent digits. -/
def formatCurrency (x : PyDec) : String :=
  "$" ++ (if x.neg then "-" else "") ++
    groupThousands (x.cents / 100) ++ "." ++ padCents (x.cents % 100)

/-- Reformatting applied by the `BHT` and `DMG` rules (source lines 259 and
301): `f"{d[4:6]}/{d[6:8]}/{d[:4]}"`. -/
def reformatDate8 (d : String) : String :=
  let l := d.toList
  String.mk ((l.drop 4).take 2) ++ "/" ++ String.mk ((l.drop 6).take 2) ++ "/" ++
    String.mk (l.take 4)

/-- The `BHT` branch body (source lines 256-259). -/
def stepBHT (r : EligibilityResponse) (es : List String) : EligibilityResponse :=
  let d := es.getD 4 ""
  if d.length = 8 then { r with response_date := reformatDate8 d } else r

/-- The `NM1` branch body (source lines 261-279): entity `PR` names the payer,
`1P` the provider (with NPI at field 9), `IL` the subscriber (name joined as
`LAST, FIRST MIDDLE`, member id at field 9). -/
def stepNM1 (r : EligibilityResponse) (es : List String) : EligibilityResponse :=
  if 1 < es.length then
    let e := es.getD 1 ""
    if e = "PR" ∧ 3 < es.length then
      { r with payer_name := es.getD 3 "" }
    else if e = "1P" ∧ 3 < es.length then
      let r := { r with provider_name := es.getD 3 "" }
      if 9 < es.length then { r with provider_npi := es.getD 9 "" } else r
    else if e = "IL" then
      let r :=
        if 4 < es.length then
          let last := es.getD 3 ""
          let first := es.getD 4 ""
          let middle := es.getD 5 ""
          let nm := last ++ ", " ++ first
          { r with subscriber_name := if ¬(middle = "") then nm ++ " " ++ middle else nm }
        else r
      if 9 < es.length then { r with member_id := es.getD 9 "" } else r
    else r
  else r

/-- The `REF` branch body (source lines 281-286): qualifier `18` is the group
number, `6P` the employer. -/
def stepREF (r : EligibilityResponse) (es : List String) : EligibilityResponse :=
  let e := es.getD 1 ""
  if e = "18" then { r with group_number := es.getD 2 "" }
  else if e = "6P" then { r with employer := es.getD 2 "" }
  else r

/-- The `DMG` branch body (source lines 297-303): 8-character field 2 becomes
the date of birth; field 3 equal to `F` gives `Female`, anything else `Male`. -/
def stepDMG (r : EligibilityResponse) (es : List String) : EligibilityResponse :=
  let r :=
    if 2 < es.length then
      let d := es.getD 2 ""
      if d.length = 8 then { r with date_of_birth := reformatDate8 d } else r
    else r
  if 3 < es.length then
    { r with gender := if es.getD 3 "" = "F" then "Female" else "Male" }
  else r

/-- The plan-name rule (source lines 306-307): field 5 containing `PLAN`
case-insensitively becomes the plan name (last occurrence wins). -/
def stepEBPlan (r : EligibilityResponse) (es : List String) : EligibilityResponse :=
  if 5 < es.length ∧ strContains (pyUpper (es.getD 5 "")) "PLAN" = true then
    { r with plan_name := es.getD 5 "" }
  else r

/-- The deductible rules (source lines 319-326): coverage level `IND` with
time qualifier `22` sets the individual deductible, `29` the amount met, each
only if still empty. -/
def applyDeductibleRule (r : EligibilityResponse) (es : List String)
    (formatted : String) : EligibilityResponse :=
  if es.getD 2 "" = "IND" then
    if es.getD 6 "" = "22" then
      if r.individual_deductible = "" then
        { r with individual_deductible := formatted }
      else r
    else if es.getD 6 "" = "29" then
      if r.individual_deductible_met = "" then
        { r with individual_deductible_met := formatted }
      else r
    else r
  else r

/-- The condition of source line 329.  Python's conditional expression binds
loosest, so the line reads
`(benefit_info in ['A3','98'] or 'PREVENTIVE' in elements[5].upper()) if len(elements) > 5 else False`,
with `benefit_info` equal to field 4 — the `B`/`C` qualifier of field 1 plays
no role here. -/
def copayCond1 (es : List String) : Bool :=
  if 5 < es.length then
    (es.getD 4 "" == "A3" || es.getD 4 "" == "98") ||
      strContains (pyUpper (es.getD 5 "")) "PREVENTIVE"
  else false

/-- The first copay rule (source lines 328-331), guarded by `copayCond1` and
first-wins. -/
def applyCopayRule1 (r : EligibilityResponse) (es : List String)
    (formatted : String) : EligibilityResponse :=
  if copayCond1 es then
    if r.preventative_care_copay = "" then
      { r with preventative_care_copay := formatted }
    else r
  else r

/-- The financial-amount block (source lines 310-331): field 7, when it passes
the numeric guard, is converted with `float` — which raises for e.g. a second
dot, modelled as the error case — formatted as currency, and fed to the
deductible and first copay rules in that order. -/
def stepEBAmounts (r : EligibilityResponse) (es : List String) :
    Except String EligibilityResponse :=
  if 7 < es.length then
    let amount := es.getD 7 ""
    if numericAmount amount then
      match pyFloat amount with
      | none => .error ("could not convert string to float: " ++ amount)
      | some v =>
        .ok (applyCopayRule1 (applyDeductibleRule r es (formatCurrency v)) es
          (formatCurrency v))
    else .ok r
  else .ok r

/-- The second copay block (source lines 333-344): field 1 in `B`/`C`, field 4
in `A3`/`98`, numeric field 7, first-wins.  Its `float` call can only raise
where the block above already raised, but the error case is kept for
faithfulness. -/
def stepEBCopay2 (r : EligibilityResponse) (es : List String) :
    Except String EligibilityResponse :=
  if 1 < es.length then
    let benefit_type := es.getD 1 ""
    if (benefit_type = "B" ∨ benefit_type = "C") ∧ 4 < es.length then
      if (es.getD 4 "" = "A3" ∨ es.getD 4 "" = "98") ∧ 7 < es.length then
        let amount := es.getD 7 ""
        if numericAmount amount then
          match pyFloat amount with
          | none => .error ("could not convert string to float: " ++ amount)
          | some v =>
            if r.preventative_care_copay = "" then
              .ok { r with preventative_care_copay := formatCurrency v }
            else .ok r
        else .ok r
      else .ok r
    else .ok r
  else .ok r

/-- The mental-health block (source lines 346-353): a caret-separated list in
field 3 containing `MH`, or field 3 equal to `MH`, marks coverage `Yes`. -/
def stepEBMentalHealth (r : EligibilityResponse) (es : List String) :
    EligibilityResponse :=
  if 3 < es.length ∧ ¬(es.getD 3 "" = "") then
    let e3 := es.getD 3 ""
    if charIn e3 '^' then
      if (pySplit '^' e3).contains "MH" then
        { r with mental_health_covered := "Yes" }
      else r
    else if e3 = "MH" then { r with mental_health_covered := "Yes" }
    else r
  else r

/-- The whole `EB` branch (source lines 305-353): the four blocks run in
sequence and are not mutually exclusive. -/
def stepEB (r : EligibilityResponse) (es : List String) :
    Except String EligibilityResponse :=
  match stepEBAmounts (stepEBPlan r es) es with
  | .error e => .error e
  | .ok r2 =>
    match stepEBCopay2 r2 es with
    | .error e => .error e
    | .ok r3 => .ok (stepEBMentalHealth r3 es)

/-- One iteration of the segment loop (source lines 247-353).  `es` is the
field list of a segment; the chain of guards mirrors the `if`/`elif` chain, a
tag whose extra length condition fails falls through to no assignment at
all. -/
def tagOf (es : List String) : String := es.getD 0 ""

def processSegment (r : EligibilityResponse) (es : List String) :
    Except String EligibilityResponse :=
  if tagOf es = "ST" ∧ 2 < es.length then
    .ok { r with transaction_id := es.getD 2 "" }
  else if tagOf es = "BHT" ∧ 4 < es.length then
    .ok (stepBHT r es)
  else if tagOf es = "NM1" then
    .ok (stepNM1 r es)
  else if tagOf es = "REF" ∧ 2 < es.length then
    .ok (stepREF r es)
  else if tagOf es = "N3" ∧ 1 < es.length then
    .ok { r with address := es.getD 1 "" }
  else if tagOf es = "N4" ∧ 3 < es.length ∧ ¬(r.address = "") then
    .ok { r with address :=
      r.address ++ ", " ++ es.getD 1 "" ++ ", " ++ es.getD 2 "" ++ " " ++ es.getD 3 "" }
  else if tagOf es = "DMG" then
    .ok (stepDMG r es)
  else if tagOf es = "EB" then
    stepEB r es
  else
    .ok r

/-- The segment list extracted from raw content (source line 245):
`[seg.strip() for seg in content.split('~') if seg.strip()]`. -/
def segmentsOf (content : String) : List String :=
  ((pySplit '~' content).map pyStrip).filter (fun s => ¬(s = ""))

/-- The loop of `parse_content` over the prepared segment list, each segment
split on `*` (source line 250). -/
def runSegments (r : EligibilityResponse) : List String →
    Except String EligibilityResponse
  | [] => .ok r
  | seg :: rest =>
    match processSegment r (pySplit '*' seg) with
    | .error e => .error e
    | .ok r1 => runSegments r1 rest

/-- `SimpleEDI271Parser.parse_content` (source lines 244-355) as a function of
the record held by the instance: the source mutates `self.data` in place and
returns it, modelled by explicit state passing.  The error case is the
uncaught `ValueError` that `float` can raise inside the `EB` branch. -/
def parse_content (r : EligibilityResponse) (content : String) :
    Except String EligibilityResponse :=
  runSegments r (segmentsOf content)

end EDI271

namespace EDI271

namespace DatabaseManager

/-- `DatabaseManager._parse_date` (source lines 203-216), the conversion
applied to date strings before the insert.  The leading underscore of the
Python name is dropped.  An empty string becomes `None`; a string containing a
slash and splitting into exactly three parts is rearranged to
`parts[2]-parts[0].zfill(2)-parts[1].zfill(2)`; every other string is returned
unchanged (the `except` clause is dead, nothing in the body raises). -/
def parse_date (date_str : String) : Option String :=
  if date_str = "" then none
  else if charIn date_str '/' then
    let parts := pySplit '/' date_str
    if parts.length = 3 then
      some (parts.getD 2 "" ++ "-" ++ pyZfill 2 (parts.getD 0 "") ++ "-" ++
        pyZfill 2 (parts.getD 1 ""))
    else some date_str
  else some date_str

end DatabaseManager

/-- Row shape bound into the `INSERT` statement of
`insert_eligibility_response` (source lines 133-161): the eighteen columns of
the statement; the two date columns hold the result of `_parse_date` and are
nullable. -/
structure InsertRow where
  transaction_id : String
  response_date : Option String
  payer_name : String
  provider_name : String
  provider_npi : String
  subscriber_name : String
  member_id : String
  group_number : String
  employer : String
  address : String
  date_of_birth : Option String
  gender : String
  plan_name : String
  individual_deductible : String
  individual_deductible_met : String
  preventative_care_copay : String
  mental_health_covered : String
  status : String
  deriving DecidableEq

/-- The parameter dictionary built on source lines 153-155: `asdict(data)`
with `response_date` and `date_of_birth` replaced by `_parse_date` of their
values. -/
def insertPayload (d : EligibilityResponse) : InsertRow :=
  { transaction_id := d.transaction_id
    response_date := DatabaseManager.parse_date d.response_date
    payer_name := d.payer_name
    provider_name := d.provider_name
    provider_npi := d.provider_npi
    subscriber_name := d.subscriber_name
    member_id := d.member_id
    group_number := d.group_number
    employer := d.employer
    address := d.address
    date_of_birth := DatabaseManager.parse_date d.date_of_birth
    gender := d.gender
    plan_name := d.plan_name
    individual_deductible := d.individual_deductible
    individual_deductible_met := d.individual_deductible_met
    preventative_care_copay := d.preventative_care_copay
    mental_health_covered := d.mental_health_covered
    status := d.status }

/-- `asdict(data)` as used by the JSON serialization (source line 531): one
key/value entry per dataclass field, in declaration order. -/
def toKV (r : EligibilityResponse) : List (String × String) :=
  [("transaction_id", r.transaction_id),
   ("response_date", r.response_date),
   ("payer_name", r.payer_name),
   ("provider_name", r.provider_name),
   ("provider_npi", r.provider_npi),
   ("subscriber_name", r.subscriber_name),
   ("member_id", r.member_id),
   ("group_number", r.group_number),
   ("employer", r.employer),
   ("address", r.address),
   ("date_of_birth", r.date_of_birth),
   ("gender", r.gender),
   ("plan_name", r.plan_name),
   ("individual_deductible", r.individual_deductible),
   ("individual_deductible_met", r.individual_deductible_met),
   ("preventative_care_copay", r.preventative_care_copay),
   ("mental_health_covered", r.mental_health_covered),
   ("status", r.status),
   ("created_at", r.created_at)]

/-- Modelled from the spec: the source serializes a record with
`json.dump(asdict(data))` (source lines 528-532) but contains no inverse;
construction of a record back from the key/value form is modelled from the
spec sentence "Round-trip: serializing a populated record to the structured
key/value form and back recovers identical field values" as field-by-field
lookup of the dataclass keys. -/
def ofKV (kv : List (String × String)) : EligibilityResponse :=
  { transaction_id := (kv.lookup "transaction_id").getD ""
    response_date := (kv.lookup "response_date").getD ""
    payer_name := (kv.lookup "payer_name").getD ""
    provider_name := (kv.lookup "provider_name").getD ""
    provider_npi := (kv.lookup "provider_npi").getD ""
    subscriber_name := (kv.lookup "subscriber_name").getD ""
    member_id := (kv.lookup "member_id").getD ""
    group_number := (kv.lookup "group_number").getD ""
    employer := (kv.lookup "employer").getD ""
    address := (kv.lookup "address").getD ""
    date_of_birth := (kv.lookup "date_of_birth").getD ""
    gender := (kv.lookup "gender").getD ""
    plan_name := (kv.lookup "plan_name").getD ""
    individual_deductible := (kv.lookup "individual_deductible").getD ""
    individual_deductible_met := (kv.lookup "individual_deductible_met").getD ""
    preventative_care_copay := (kv.lookup "preventative_care_copay").getD ""
    mental_health_covered := (kv.lookup "mental_health_covered").getD ""
    status := (kv.lookup "status").getD ""
    created_at := (kv.lookup "created_at").getD "" }

/-- Result of one operation against the persistence layer, paired with how
many database calls it made and whether it logged an operation failure. -/
structure OpResult (α : Type) where
  result : α
  dbCalls : Nat
  errorLogged : Bool
  deriving DecidableEq

/-- A database row as returned by the fetch operation (abstract key/value
shape). -/
def RowData := List (String × String)

/-- `SimpleEDI271Parser.parse_file` (source lines 230-242) after the file has
been read: parse the stripped content from the record `r` held by the
instance, then — when saving is requested and a manager is present — attempt
the insert exactly once; an insert failure is caught, logged, and the parsed
record is still returned. -/
def parse_file (r : EligibilityResponse) (content : String)
    (save_to_db hasDb : Bool) (ins : Except Unit Nat) :
    OpResult (Except String EligibilityResponse) :=
  match parse_content r (pyStrip content) with
  | .error e => ⟨.error e, 0, false⟩
  | .ok res =>
    if save_to_db && hasDb then
      match ins with
      | .ok _ => ⟨.ok res, 1, false⟩
      | .error _ => ⟨.ok res, 1, true⟩
    else ⟨.ok res, 0, false⟩

/-- `SimpleEDI271Parser.get_member_eligibility` (source lines 357-367): no
manager gives a warning and `None` with no call; a failing fetch is caught,
logged as an error, and reported as `None`; otherwise the row is returned.
The single fetch is attempted exactly once. -/
def get_member_eligibility (hasDb : Bool)
    (fetch : Except Unit (Option RowData)) : OpResult (Option RowData) :=
  if hasDb then
    match fetch with
    | .ok v => ⟨v, 1, false⟩
    | .error _ => ⟨none, 1, true⟩
  else ⟨none, 0, false⟩

/-- `SimpleEDI271Parser.update_member_status` (source lines 369-379): no
manager gives a warning and `False`; a failing update is caught, logged, and
reported as `False`; otherwise the row-count flag is returned.  The single
update is attempted exactly once. -/
def update_member_status (hasDb : Bool) (upd : Except Unit Bool) :
    OpResult Bool :=
  if hasDb then
    match upd with
    | .ok b => ⟨b, 1, false⟩
    | .error _ => ⟨false, 1, true⟩
  else ⟨false, 0, false⟩

/-- Command-line surface of `main` (source lines 453-475), reduced to the
arguments the control flow inspects. -/
structure MainArgs where
  input_file : Option String := none
  get_member : Option String := none
  update_status : Option (String × String) := none
  db_host : Option String := none
  save_to_db : Bool := false

/-- Environment-dependent outcomes abstracted as an oracle: whether the
database manager construction succeeds, what reading the input file yields
(`none` models an I/O failure), and the outcome of each single persistence
operation. -/
structure EnvModel where
  dbInitOk : Bool := false
  fileContent : Option String := none
  insertResult : Except Unit Nat := Except.ok 1
  fetchResult : Except Unit (Option RowData) := Except.ok none
  updateResult : Except Unit Bool := Except.ok true

/-- A manager is available iff `--db-host` was given and construction
succeeded (`create_db_manager_from_args`, source lines 426-451, returns `None`
in every failure case). -/
def dbConfigured (a : MainArgs) (env : EnvModel) : Bool :=
  a.db_host.isSome && env.dbInitOk

/-- Python `int(s)` succeeds on an optional sign followed by digits (ASCII
form; underscore grouping and surrounding whitespace are not produced by the
argument vector). -/
def pyIntOk (s : String) : Bool :=
  let l := s.toList
  let l' := match l with
    | '-' :: rest => rest
    | '+' :: rest => rest
    | _ => l
  !l'.isEmpty && l'.all Char.isDigit

/-- Return value of `main` (source lines 483-550).  Query branches come
first: a member query or status update without a configured manager returns 1,
otherwise the operation result is only printed and the branch returns 0 even
when the operation failed.  A missing input file returns 1.  The parsing
branch returns 1 exactly when an exception escapes to the outer handler: the
file cannot be read, `int(record_id)` fails, or `parse_content` raises; an
insert failure inside `parse_file` is swallowed there and leaves the return
value 0.  Falling off the end of `main` returns `None`, modelled as 0. -/
def mainReturn (a : MainArgs) (env : EnvModel) : Nat :=
  if a.get_member.isSome then
    if dbConfigured a env then
      let _ := get_member_eligibility true env.fetchResult
      0
    else 1
  else if a.update_status.isSome then
    if dbConfigured a env then
      if pyIntOk (a.update_status.getD ("", "")).1 then
        let _ := update_member_status true env.updateResult
        0
      else 1
    else 1
  else
    match a.input_file with
    | none => 1
    | some _ =>
      match env.fileContent with
      | none => 1
      | some content =>
        match (parse_file defaultResponse content a.save_to_db
            (dbConfigured a env) env.insertResult).result with
        | .error _ => 1
        | .ok _ => 0

/-- Exit status of the process (source lines 552-553): the entry point is
`main()` bare, without `sys.exit`, so the return value of `main` is computed
and then discarded; whenever `main` returns — and it catches every exception —
the interpreter exits with status 0. -/
def processExit (a : MainArgs) (env : EnvModel) : Nat :=
  (fun _returnValue => 0) (mainReturn a env)

/-- Guard under which the `ST` rule assigns `transaction_id`. -/
def writesTransactionId (es : List String) : Bool :=
  tagOf es == "ST" && decide (2 < es.length)

/-- Guard under which the `BHT` rule assigns `response_date`. -/
def writesResponseDate (es : List String) : Bool :=
  tagOf es == "BHT" && decide (4 < es.length) && decide ((es.getD 4 "").length = 8)

/-- Guard under which the `NM1`/`PR` rule assigns `payer_name`. -/
def writesPayerName (es : List String) : Bool :=
  tagOf es == "NM1" && decide (1 < es.length) && es.getD 1 "" == "PR" &&
    decide (3 < es.length)

/-- Guard under which the `NM1`/`1P` rule assigns `provider_name`. -/
def writesProviderName (es : List String) : Bool :=
  tagOf es == "NM1" && decide (1 < es.length) && es.getD 1 "" == "1P" &&
    decide (3 < es.length)

/-- Guard under which the `NM1`/`1P` rule assigns `provider_npi`. -/
def writesProviderNpi (es : List String) : Bool :=
  writesProviderName es && decide (9 < es.length)

/-- Guard under which the `NM1`/`IL` rule assigns `subscriber_name`. -/
def writesSubscriberName (es : List String) : Bool :=
  tagOf es == "NM1" && decide (1 < es.length) && es.getD 1 "" == "IL" &&
    decide (4 < es.length)

/-- Guard under which the `NM1`/`IL` rule assigns `member_id`. -/
def writesMemberId (es : List String) : Bool :=
  tagOf es == "NM1" && decide (1 < es.length) && es.getD 1 "" == "IL" &&
    decide (9 < es.length)

/-- Guard under which the `REF`/`18` rule assigns `group_number`. -/
def writesGroupNumber (es : List String) : Bool :=
  tagOf es == "REF" && decide (2 < es.length) && es.getD 1 "" == "18"

/-- Guard under which the `REF`/`6P` rule assigns `employer`. -/
def writesEmployer (es : List String) : Bool :=
  tagOf es == "REF" && decide (2 < es.length) && es.getD 1 "" == "6P"

/-- Guard under which the `N3` or `N4` rule touches `address` (the `N4` rule
additionally requires an address already present; this syntactic condition is
the segment-shape part). -/
def writesAddress (es : List String) : Bool :=
  (tagOf es == "N3" && decide (1 < es.length)) ||
    (tagOf es == "N4" && decide (3 < es.length))

/-- Guard under which the `DMG` rule assigns `date_of_birth`. -/
def writesDateOfBirth (es : List String) : Bool :=
  tagOf es == "DMG" && decide (2 < es.length) && decide ((es.getD 2 "").length = 8)

/-- Guard under which the `DMG` rule assigns `gender`. -/
def writesGender (es : List String) : Bool :=
  tagOf es == "DMG" && decide (3 < es.length)

/-- Guard under which the `EB` plan rule assigns `plan_name`. -/
def writesPlanName (es : List String) : Bool :=
  tagOf es == "EB" && decide (5 < es.length) &&
    strContains (pyUpper (es.getD 5 "")) "PLAN"

/-- Guard under which the `EB` deductible rule may assign
`individual_deductible`. -/
def writesIndDeductible (es : List String) : Bool :=
  tagOf es == "EB" && decide (7 < es.length) && numericAmount (es.getD 7 "") &&
    es.getD 2 "" == "IND" && es.getD 6 "" == "22"

/-- Guard under which the `EB` deductible rule may assign
`individual_deductible_met`. -/
def writesIndDeductibleMet (es : List String) : Bool :=
  tagOf es == "EB" && decide (7 < es.length) && numericAmount (es.getD 7 "") &&
    es.getD 2 "" == "IND" && es.getD 6 "" == "29"

/-- Guard under which either `EB` copay block may assign
`preventative_care_copay`. -/
def writesCopay (es : List String) : Bool :=
  tagOf es == "EB" && decide (7 < es.length) && numericAmount (es.getD 7 "") &&
    (copayCond1 es ||
      ((es.getD 1 "" == "B" || es.getD 1 "" == "C") &&
        (es.getD 4 "" == "A3" || es.getD 4 "" == "98")))

/-- Guard under which the `EB` mental-health block assigns
`mental_health_covered`. -/
def writesMentalHealth (es : List String) : Bool :=
  tagOf es == "EB" && decide (3 < es.length) && !(es.getD 3 "" == "") &&
    ((charIn (es.getD 3 "") '^' && (pySplit '^' (es.getD 3 "")).contains "MH") ||
      es.getD 3 "" == "MH")

/-- Instance state of `SimpleEDI271Parser` (source lines 225-228): the one
record created at construction and mutated by every `parse_content` call. -/
structure SessionState where
  data : EligibilityResponse
  deriving DecidableEq

/-- A freshly constructed instance. -/
def freshSession : SessionState := ⟨defaultResponse⟩

/-- A `parse_content` call as seen from the instance: it reads and mutates the
stored record and returns exactly that record. -/
def SessionState.parseContent (p : SessionState) (content : String) :
    Except String (EligibilityResponse × SessionState) :=
  (parse_content p.data content).map (fun r => (r, ⟨r⟩))

end EDI271

namespace EDI271

def sampleContent : String :=
  "ST*271*1234567890~BHT*0022*11*1*20240801*1200~NM1*PR*2*BLUE CROSS BLUE SHIELD*****PI*12345~NM1*1P*2*PROVIDER NAME*****XX*1234567890~NM1*IL*1*DOE*JOHN*M***MI*123456789~REF*18*GRP12345~N3*123 MAIN ST~N4*ANYTOWN*CA*90210~DMG*D8*19900101*M~EB*1*IND**30*MEDICAL PLAN*22*2500.00~EB*1*IND**30*MEDICAL PLAN*29*500.00~"

def c5es : List String := ["EB", "1", "X", "Y", "A3", "Z", "W", "100"]

def c5after : EligibilityResponse := { preventative_care_copay := "$100.00" }

def c6start : EligibilityResponse := { individual_deductible := "$1.00" }

def c7es : List String := ["BHT", "0022", "11", "1", "20240801", "1200"]

def c7after : EligibilityResponse := { response_date := "08/01/2024" }

def c10r1 : EligibilityResponse := { transaction_id := "ABC" }

def c10r2 : EligibilityResponse := { transaction_id := "ABC", address := "5 MAIN" }

def c8args : MainArgs :=
  { input_file := some "claims.edi", db_host := some "h", save_to_db := true }

def c8env : EnvModel :=
  { dbInitOk := true, fileContent := some "ST*271*99",
    insertResult := Except.error () }

def c8res : EligibilityResponse := { transaction_id := "99" }


end EDI271

namespace EDI271

/-- Frame relation for one processed segment: every field whose guard does not
hold in `es` keeps its old value (`status` and `created_at` are never assigned
by the segment loop). -/
def FrameFacts (es : List String) (old new : EligibilityResponse) : Prop :=
  (writesTransactionId es = false → new.transaction_id = old.transaction_id) ∧
  (writesResponseDate es = false → new.response_date = old.response_date) ∧
  (writesPayerName es = false → new.payer_name = old.payer_name) ∧
  (writesProviderName es = false → new.provider_name = old.provider_name) ∧
  (writesProviderNpi es = false → new.provider_npi = old.provider_npi) ∧
  (writesSubscriberName es = false → new.subscriber_name = old.subscriber_name) ∧
  (writesMemberId es = false → new.member_id = old.member_id) ∧
  (writesGroupNumber es = false → new.group_number = old.group_number) ∧
  (writesEmployer es = false → new.employer = old.employer) ∧
  (writesAddress es = false → new.address = old.address) ∧
  (writesDateOfBirth es = false → new.date_of_birth = old.date_of_birth) ∧
  (writesGender es = false → new.gender = old.gender) ∧
  (writesPlanName es = false → new.plan_name = old.plan_name) ∧
  (writesIndDeductible es = false →
    new.individual_deductible = old.individual_deductible) ∧
  (writesIndDeductibleMet es = false →
    new.individual_deductible_met = old.individual_deductible_met) ∧
  (writesCopay es = false →
    new.preventative_care_copay = old.preventative_care_copay) ∧
  (writesMentalHealth es = false →
    new.mental_health_covered = old.mental_health_covered) ∧
  new.status = old.status ∧ new.created_at = old.created_at

/-- Frame relation for a whole run: every field whose guard holds in no
segment of the list keeps its old value. -/
def ListFrameFacts (segs : List String) (old new : EligibilityResponse) : Prop :=
  ((∀ s ∈ segs, writesTransactionId (pySplit '*' s) = false) →
    new.transaction_id = old.transaction_id) ∧
  ((∀ s ∈ segs, writesResponseDate (pySplit '*' s) = false) →
    new.response_date = old.response_date) ∧
  ((∀ s ∈ segs, writesPayerName (pySplit '*' s) = false) →
    new.payer_name = old.payer_name) ∧
  ((∀ s ∈ segs, writesProviderName (pySplit '*' s) = false) →
    new.provider_name = old.provider_name) ∧
  ((∀ s ∈ segs, writesProviderNpi (pySplit '*' s) = false) →
    new.provider_npi = old.provider_npi) ∧
  ((∀ s ∈ segs, writesSubscriberName (pySplit '*' s) = false) →
    new.subscriber_name = old.subscriber_name) ∧
  ((∀ s ∈ segs, writesMemberId (pySplit '*' s) = false) →
    new.member_id = old.member_id) ∧
  ((∀ s ∈ segs, writesGroupNumber (pySplit '*' s) = false) →
    new.group_number = old.group_number) ∧
  ((∀ s ∈ segs, writesEmployer (pySplit '*' s) = false) →
    new.employer = old.employer) ∧
  ((∀ s ∈ segs, writesAddress (pySplit '*' s) = false) →
    new.address = old.address) ∧
  ((∀ s ∈ segs, writesDateOfBirth (pySplit '*' s) = false) →
    new.date_of_birth = old.date_of_birth) ∧
  ((∀ s ∈ segs, writesGender (pySplit '*' s) = false) →
    new.gender = old.gender) ∧
  ((∀ s ∈ segs, writesPlanName (pySplit '*' s) = false) →
    new.plan_name = old.plan_name) ∧
  ((∀ s ∈ segs, writesIndDeductible (pySplit '*' s) = false) →
    new.individual_deductible = old.individual_deductible) ∧
  ((∀ s ∈ segs, writesIndDeductibleMet (pySplit '*' s) = false) →
    new.individual_deductible_met = old.individual_deductible_met) ∧
  ((∀ s ∈ segs, writesCopay (pySplit '*' s) = false) →
    new.preventative_care_copay = old.preventative_care_copay) ∧
  ((∀ s ∈ segs, writesMentalHealth (pySplit '*' s) = false) →
    new.mental_health_covered = old.mental_health_covered) ∧
  new.status = old.status ∧ new.created_at = old.created_at

end EDI271

namespace EDI271

theorem formatCurrency_ne_empty (x : PyDec) : ¬ formatCurrency x = "" := by
  simp [formatCurrency, String.ext_iff]

theorem copayCond1_eq (es : List String) : copayCond1 es =
    (decide (5 < es.length) && ((es.getD 4 "" == "A3" || es.getD 4 "" == "98") ||
      strContains (pyUpper (es.getD 5 "")) "PREVENTIVE")) := by
  unfold copayCond1; split <;> simp_all

end EDI271

namespace EDI271

theorem frameFactsSelf (es : List String) (r : EligibilityResponse) :
    FrameFacts es r r := by
  unfold FrameFacts
  simp

theorem FrameFacts.trans {es : List String} {a b c : EligibilityResponse}
    (h1 : FrameFacts es a b) (h2 : FrameFacts es b c) : FrameFacts es a c := by
  obtain ⟨p1, p2, p3, p4, p5, p6, p7, p8, p9, p10, p11, p12, p13, p14, p15, p16,
    p17, p18, p19⟩ := h1
  obtain ⟨q1, q2, q3, q4, q5, q6, q7, q8, q9, q10, q11, q12, q13, q14, q15, q16,
    q17, q18, q19⟩ := h2
  exact ⟨fun hw => (q1 hw).trans (p1 hw), fun hw => (q2 hw).trans (p2 hw),
    fun hw => (q3 hw).trans (p3 hw), fun hw => (q4 hw).trans (p4 hw),
    fun hw => (q5 hw).trans (p5 hw), fun hw => (q6 hw).trans (p6 hw),
    fun hw => (q7 hw).trans (p7 hw), fun hw => (q8 hw).trans (p8 hw),
    fun hw => (q9 hw).trans (p9 hw), fun hw => (q10 hw).trans (p10 hw),
    fun hw => (q11 hw).trans (p11 hw), fun hw => (q12 hw).trans (p12 hw),
    fun hw => (q13 hw).trans (p13 hw), fun hw => (q14 hw).trans (p14 hw),
    fun hw => (q15 hw).trans (p15 hw), fun hw => (q16 hw).trans (p16 hw),
    fun hw => (q17 hw).trans (p17 hw), q18.trans p18, q19.trans p19⟩

theorem listFrameFactsSelf (segs : List String) (r : EligibilityResponse) :
    ListFrameFacts segs r r := by
  unfold ListFrameFacts
  simp

theorem ListFrameFacts.cons {s : String} {rest : List String}
    {a b c : EligibilityResponse} (h1 : FrameFacts (pySplit '*' s) a b)
    (h2 : ListFrameFacts rest b c) : ListFrameFacts (s :: rest) a c := by
  obtain ⟨p1, p2, p3, p4, p5, p6, p7, p8, p9, p10, p11, p12, p13, p14, p15, p16,
    p17, p18, p19⟩ := h1
  obtain ⟨q1, q2, q3, q4, q5, q6, q7, q8, q9, q10, q11, q12, q13, q14, q15, q16,
    q17, q18, q19⟩ := h2
  refine ⟨?_, ?_, ?_, ?_, ?_, ?_, ?_, ?_, ?_, ?_, ?_, ?_, ?_, ?_, ?_, ?_, ?_,
    q18.trans p18, q19.trans p19⟩ <;>
    intro hw
  · exact (q1 (fun x hx => hw x (List.mem_cons_of_mem _ hx))).trans
      (p1 (hw s (List.mem_cons_self _ _)))
  · exact (q2 (fun x hx => hw x (List.mem_cons_of_mem _ hx))).trans
      (p2 (hw s (List.mem_cons_self _ _)))
  · exact (q3 (fun x hx => hw x (List.mem_cons_of_mem _ hx))).trans
      (p3 (hw s (List.mem_cons_self _ _)))
  · exact (q4 (fun x hx => hw x (List.mem_cons_of_mem _ hx))).trans
      (p4 (hw s (List.mem_cons_self _ _)))
  · exact (q5 (fun x hx => hw x (List.mem_cons_of_mem _ hx))).trans
      (p5 (hw s (List.mem_cons_self _ _)))
  · exact (q6 (fun x hx => hw x (List.mem_cons_of_mem _ hx))).trans
      (p6 (hw s (List.mem_cons_self _ _)))
  · exact (q7 (fun x hx => hw x (List.mem_cons_of_mem _ hx))).trans
      (p7 (hw s (List.mem_cons_self _ _)))
  · exact (q8 (fun x hx => hw x (List.mem_cons_of_mem _ hx))).trans
      (p8 (hw s (List.mem_cons_self _ _)))
  · exact (q9 (fun x hx => hw x (List.mem_cons_of_mem _ hx))).trans
      (p9 (hw s (List.mem_cons_self _ _)))
  · exact (q10 (fun x hx => hw x (List.mem_cons_of_mem _ hx))).trans
      (p10 (hw s (List.mem_cons_self _ _)))
  · exact (q11 (fun x hx => hw x (List.mem_cons_of_mem _ hx))).trans
      (p11 (hw s (List.mem_cons_self _ _)))
  · exact (q12 (fun x hx => hw x (List.mem_cons_of_mem _ hx))).trans
      (p12 (hw s (List.mem_cons_self _ _)))
  · exact (q13 (fun x hx => hw x (List.mem_cons_of_mem _ hx))).trans
      (p13 (hw s (List.mem_cons_self _ _)))
  · exact (q14 (fun x hx => hw x (List.mem_cons_of_mem _ hx))).trans
      (p14 (hw s (List.mem_cons_self _ _)))
  · exact (q15 (fun x hx => hw x (List.mem_cons_of_mem _ hx))).trans
      (p15 (hw s (List.mem_cons_self _ _)))
  · exact (q16 (fun x hx => hw x (List.mem_cons_of_mem _ hx))).trans
      (p16 (hw s (List.mem_cons_self _ _)))
  · exact (q17 (fun x hx => hw x (List.mem_cons_of_mem _ hx))).trans
      (p17 (hw s (List.mem_cons_self _ _)))

end EDI271

namespace EDI271

theorem stepBHT_frame (r : EligibilityResponse) (es : List String)
    (hc : tagOf es = "BHT" ∧ 4 < es.length) :
    FrameFacts es r (stepBHT r es) := by
  obtain ⟨ht, hlen⟩ := hc
  unfold FrameFacts
  simp only [stepBHT]
  split <;>
    simp_all [writesTransactionId, writesResponseDate, writesPayerName,
      writesProviderName, writesProviderNpi, writesSubscriberName, writesMemberId,
      writesGroupNumber, writesEmployer, writesAddress, writesDateOfBirth,
      writesGender, writesPlanName, writesIndDeductible, writesIndDeductibleMet,
      writesCopay, writesMentalHealth]

theorem stepNM1_frame (r : EligibilityResponse) (es : List String)
    (ht : tagOf es = "NM1") : FrameFacts es r (stepNM1 r es) := by
  unfold FrameFacts
  simp only [stepNM1]
  repeat' split
  all_goals
    simp_all [writesTransactionId, writesResponseDate, writesPayerName,
      writesProviderName, writesProviderNpi, writesSubscriberName, writesMemberId,
      writesGroupNumber, writesEmployer, writesAddress, writesDateOfBirth,
      writesGender, writesPlanName, writesIndDeductible, writesIndDeductibleMet,
      writesCopay, writesMentalHealth]

theorem stepREF_frame (r : EligibilityResponse) (es : List String)
    (hc : tagOf es = "REF" ∧ 2 < es.length) :
    FrameFacts es r (stepREF r es) := by
  obtain ⟨ht, hlen⟩ := hc
  unfold FrameFacts
  simp only [stepREF]
  repeat' split
  all_goals
    simp_all [writesTransactionId, writesResponseDate, writesPayerName,
      writesProviderName, writesProviderNpi, writesSubscriberName, writesMemberId,
      writesGroupNumber, writesEmployer, writesAddress, writesDateOfBirth,
      writesGender, writesPlanName, writesIndDeductible, writesIndDeductibleMet,
      writesCopay, writesMentalHealth]

theorem stepDMG_frame (r : EligibilityResponse) (es : List String)
    (ht : tagOf es = "DMG") : FrameFacts es r (stepDMG r es) := by
  unfold FrameFacts
  simp only [stepDMG]
  repeat' split
  all_goals
    simp_all [writesTransactionId, writesResponseDate, writesPayerName,
      writesProviderName, writesProviderNpi, writesSubscriberName, writesMemberId,
      writesGroupNumber, writesEmployer, writesAddress, writesDateOfBirth,
      writesGender, writesPlanName, writesIndDeductible, writesIndDeductibleMet,
      writesCopay, writesMentalHealth]

end EDI271

namespace EDI271

theorem stepEBPlan_frame (r : EligibilityResponse) (es : List String)
    (ht : tagOf es = "EB") : FrameFacts es r (stepEBPlan r es) := by
  unfold FrameFacts
  simp only [stepEBPlan]
  split <;> (try casesm* _ ∧ _, _ ∨ _) <;>
    simp_all [writesTransactionId, writesResponseDate, writesPayerName,
      writesProviderName, writesProviderNpi, writesSubscriberName, writesMemberId,
      writesGroupNumber, writesEmployer, writesAddress, writesDateOfBirth,
      writesGender, writesPlanName, writesIndDeductible, writesIndDeductibleMet,
      writesCopay, writesMentalHealth]

theorem stepEBMentalHealth_frame (r : EligibilityResponse) (es : List String)
    (ht : tagOf es = "EB") : FrameFacts es r (stepEBMentalHealth r es) := by
  unfold FrameFacts
  simp only [stepEBMentalHealth]
  repeat' split
  all_goals (try casesm* _ ∧ _, _ ∨ _) <;>
    simp_all [writesTransactionId, writesResponseDate, writesPayerName,
      writesProviderName, writesProviderNpi, writesSubscriberName, writesMemberId,
      writesGroupNumber, writesEmployer, writesAddress, writesDateOfBirth,
      writesGender, writesPlanName, writesIndDeductible, writesIndDeductibleMet,
      writesCopay, writesMentalHealth]

theorem stepEBAmounts_frame {r r' : EligibilityResponse} {es : List String}
    (ht : tagOf es = "EB") (h : stepEBAmounts r es = Except.ok r') :
    FrameFacts es r r' := by
  unfold FrameFacts
  simp only [stepEBAmounts, applyDeductibleRule, applyCopayRule1] at h
  repeat' split at h
  all_goals first
    | exact Except.noConfusion h
    | (injection h with h; subst h;
       (try casesm* _ ∧ _, _ ∨ _) <;>
       simp_all [writesTransactionId, writesResponseDate, writesPayerName,
         writesProviderName, writesProviderNpi, writesSubscriberName,
         writesMemberId, writesGroupNumber, writesEmployer, writesAddress,
         writesDateOfBirth, writesGender, writesPlanName, writesIndDeductible,
         writesIndDeductibleMet, writesCopay, writesMentalHealth])

theorem stepEBCopay2_frame {r r' : EligibilityResponse} {es : List String}
    (ht : tagOf es = "EB") (h : stepEBCopay2 r es = Except.ok r') :
    FrameFacts es r r' := by
  unfold FrameFacts
  simp only [stepEBCopay2] at h
  repeat' split at h
  all_goals first
    | exact Except.noConfusion h
    | (injection h with h; subst h;
       (try casesm* _ ∧ _, _ ∨ _) <;>
       simp_all [writesTransactionId, writesResponseDate, writesPayerName,
         writesProviderName, writesProviderNpi, writesSubscriberName,
         writesMemberId, writesGroupNumber, writesEmployer, writesAddress,
         writesDateOfBirth, writesGender, writesPlanName, writesIndDeductible,
         writesIndDeductibleMet, writesCopay, writesMentalHealth, copayCond1_eq])

end EDI271

namespace EDI271

theorem stepEB_frame {r r' : EligibilityResponse} {es : List String}
    (ht : tagOf es = "EB") (h : stepEB r es = Except.ok r') :
    FrameFacts es r r' := by
  unfold stepEB at h
  split at h
  next e heq => exact Except.noConfusion h
  next r2 heq =>
    split at h
    next e2 heq2 => exact Except.noConfusion h
    next r3 heq3 =>
      injection h with h
      subst h
      exact ((stepEBPlan_frame r es ht).trans (stepEBAmounts_frame ht heq)).trans
        ((stepEBCopay2_frame ht heq3).trans (stepEBMentalHealth_frame r3 es ht))

theorem processSegment_frame {r r' : EligibilityResponse} {es : List String}
    (h : processSegment r es = Except.ok r') : FrameFacts es r r' := by
  unfold processSegment at h
  repeat' split at h
  all_goals first
    | exact Except.noConfusion h
    | exact stepEB_frame ‹tagOf es = "EB"› h
    | (injection h with h; subst h
       first
         | exact stepBHT_frame r es ‹tagOf es = "BHT" ∧ 4 < es.length›
         | exact stepNM1_frame r es ‹tagOf es = "NM1"›
         | exact stepREF_frame r es ‹tagOf es = "REF" ∧ 2 < es.length›
         | exact stepDMG_frame r es ‹tagOf es = "DMG"›
         | exact frameFactsSelf es r
         | (unfold FrameFacts;
            (try casesm* _ ∧ _, _ ∨ _) <;>
            simp_all [writesTransactionId, writesResponseDate, writesPayerName,
              writesProviderName, writesProviderNpi, writesSubscriberName,
              writesMemberId, writesGroupNumber, writesEmployer, writesAddress,
              writesDateOfBirth, writesGender, writesPlanName,
              writesIndDeductible, writesIndDeductibleMet, writesCopay,
              writesMentalHealth]))

theorem runSegments_frame : ∀ (segs : List String) (r r' : EligibilityResponse),
    runSegments r segs = Except.ok r' → ListFrameFacts segs r r'
  | [], r, r', h => by
    unfold runSegments at h
    injection h with h
    subst h
    exact listFrameFactsSelf [] r
  | seg :: rest, r, r', h => by
    unfold runSegments at h
    split at h
    next e heq => exact Except.noConfusion h
    next r1 heq =>
      exact ListFrameFacts.cons (processSegment_frame heq)
        (runSegments_frame rest r1 r' h)

theorem stepEBAmounts_keeps {r r' : EligibilityResponse} {es : List String}
    (h : stepEBAmounts r es = Except.ok r') :
    (¬ r.individual_deductible = "" →
      r'.individual_deductible = r.individual_deductible) ∧
    (¬ r.individual_deductible_met = "" →
      r'.individual_deductible_met = r.individual_deductible_met) := by
  simp only [stepEBAmounts, applyDeductibleRule, applyCopayRule1] at h
  repeat' split at h
  all_goals first
    | exact Except.noConfusion h
    | (injection h with h; subst h; (try casesm* _ ∧ _, _ ∨ _) <;> simp_all)

theorem stepEB_keeps {r r' : EligibilityResponse} {es : List String}
    (h : stepEB r es = Except.ok r') :
    (¬ r.individual_deductible = "" →
      r'.individual_deductible = r.individual_deductible) ∧
    (¬ r.individual_deductible_met = "" →
      r'.individual_deductible_met = r.individual_deductible_met) := by
  unfold stepEB at h
  split at h
  next e heq => exact Except.noConfusion h
  next r2 heq =>
    split at h
    next e2 heq2 => exact Except.noConfusion h
    next r3 heq3 =>
      injection h with h
      subst h
      have k1 := stepEBAmounts_keeps heq
      have p : (stepEBPlan r es).individual_deductible = r.individual_deductible ∧
          (stepEBPlan r es).individual_deductible_met =
            r.individual_deductible_met := by
        simp only [stepEBPlan]; split <;> simp
      have c : r3.individual_deductible = r2.individual_deductible ∧
          r3.individual_deductible_met = r2.individual_deductible_met := by
        simp only [stepEBCopay2] at heq3
        repeat' split at heq3
        all_goals first
          | exact Except.noConfusion heq3
          | (injection heq3 with hh; subst hh; simp)
      have m : (stepEBMentalHealth r3 es).individual_deductible =
            r3.individual_deductible ∧
          (stepEBMentalHealth r3 es).individual_deductible_met =
            r3.individual_deductible_met := by
        simp only [stepEBMentalHealth]
        repeat' split
        all_goals try simp
      constructor
      · intro hne
        rw [m.1, c.1, k1.1 (by rw [p.1]; exact hne), p.1]
      · intro hne
        rw [m.2, c.2, k1.2 (by rw [p.2]; exact hne), p.2]

theorem processSegment_keeps {r r' : EligibilityResponse} {es : List String}
    (h : processSegment r es = Except.ok r') :
    (¬ r.individual_deductible = "" →
      r'.individual_deductible = r.individual_deductible) ∧
    (¬ r.individual_deductible_met = "" →
      r'.individual_deductible_met = r.individual_deductible_met) := by
  unfold processSegment at h
  repeat' split at h
  all_goals first
    | exact Except.noConfusion h
    | exact stepEB_keeps h
    | (injection h with h; subst h;
       constructor <;> intro hne <;>
         ((try simp only [stepBHT, stepNM1, stepREF, stepDMG]);
          repeat' split
          all_goals try simp))

theorem runSegments_keeps : ∀ (segs : List String) (r r' : EligibilityResponse),
    runSegments r segs = Except.ok r' →
    (¬ r.individual_deductible = "" →
      r'.individual_deductible = r.individual_deductible) ∧
    (¬ r.individual_deductible_met = "" →
      r'.individual_deductible_met = r.individual_deductible_met)
  | [], r, r', h => by
    unfold runSegments at h
    injection h with h
    subst h
    exact ⟨fun _ => rfl, fun _ => rfl⟩
  | seg :: rest, r, r', h => by
    unfold runSegments at h
    split at h
    next e heq => exact Except.noConfusion h
    next r1 heq =>
      have k1 := processSegment_keeps heq
      have k2 := runSegments_keeps rest r1 r' h
      exact ⟨fun hne => (k2.1 (by rw [k1.1 hne]; exact hne)).trans (k1.1 hne),
             fun hne => (k2.2 (by rw [k1.2 hne]; exact hne)).trans (k1.2 hne)⟩

end EDI271

namespace EDI271

theorem stepEBPlan_copay (r : EligibilityResponse) (es : List String) :
    (stepEBPlan r es).preventative_care_copay = r.preventative_care_copay := by
  simp only [stepEBPlan]; split <;> rfl

theorem stepEBMentalHealth_copay (r : EligibilityResponse) (es : List String) :
    (stepEBMentalHealth r es).preventative_care_copay =
      r.preventative_care_copay := by
  simp only [stepEBMentalHealth]
  repeat' split
  all_goals rfl

theorem copayCond1_disj {es : List String} (h7 : 7 < es.length) :
    (copayCond1 es = true ↔
      (es.getD 4 "" = "A3" ∨ es.getD 4 "" = "98" ∨
        strContains (pyUpper (es.getD 5 "")) "PREVENTIVE" = true)) := by
  rw [copayCond1_eq]
  have h5 : 5 < es.length := by omega
  simp [h5]
  tauto

theorem stepEBAmounts_copay {r r' : EligibilityResponse} {es : List String}
    (h : stepEBAmounts r es = Except.ok r')
    (hc : r.preventative_care_copay = "") :
    (¬ r'.preventative_care_copay = "" ↔
      (7 < es.length ∧ numericAmount (es.getD 7 "") = true ∧
        copayCond1 es = true)) := by
  simp only [stepEBAmounts, applyDeductibleRule, applyCopayRule1] at h
  repeat' split at h
  all_goals first
    | exact Except.noConfusion h
    | (injection h with h; subst h; (try casesm* _ ∧ _, _ ∨ _) <;>
       simp_all [formatCurrency_ne_empty])

theorem stepEBCopay2_copay {r r' : EligibilityResponse} {es : List String}
    (h : stepEBCopay2 r es = Except.ok r') :
    (¬ r.preventative_care_copay = "" →
      r'.preventative_care_copay = r.preventative_care_copay) ∧
    (r.preventative_care_copay = "" →
      (¬ r'.preventative_care_copay = "" ↔
        (1 < es.length ∧ (es.getD 1 "" = "B" ∨ es.getD 1 "" = "C") ∧
          4 < es.length ∧ (es.getD 4 "" = "A3" ∨ es.getD 4 "" = "98") ∧
          7 < es.length ∧ numericAmount (es.getD 7 "") = true))) := by
  simp only [stepEBCopay2] at h
  repeat' split at h
  all_goals first
    | exact Except.noConfusion h
    | (injection h with h; subst h; (try casesm* _ ∧ _, _ ∨ _) <;>
       simp_all [formatCurrency_ne_empty])

end EDI271

namespace EDI271

theorem charMem_eq_false {c : Char} :
    ∀ {l : List Char}, charMem c l = false → ¬ c ∈ l
  | [], _, hm => by cases hm
  | a :: t, h, hm => by
    simp [charMem] at h
    rcases List.mem_cons.mp hm with he | hm2
    · exact h.1 he.symm
    · exact charMem_eq_false h.2 hm2

theorem charMem_of_mem {c : Char} :
    ∀ {l : List Char}, c ∈ l → charMem c l = true
  | a :: t, hm => by
    simp only [charMem, Bool.or_eq_true, decide_eq_true_eq]
    rcases List.mem_cons.mp hm with he | hm2
    · exact Or.inl he.symm
    · exact Or.inr (charMem_of_mem hm2)

theorem splitChar_cons_eq {c : Char} {l x : List Char} {t : List (List Char)}
    (hs : splitChar c l = x :: t) : splitChar c (c :: l) = [] :: x :: t := by
  simp [splitChar, hs]

theorem splitChar_cons_ne {c a : Char} (ha : ¬ a = c) {l x : List Char}
    {t : List (List Char)} (hs : splitChar c l = x :: t) :
    splitChar c (a :: l) = (a :: x) :: t := by
  simp [splitChar, hs, ha]

theorem splitChar_ne_nil (c : Char) : ∀ l : List Char, ¬ splitChar c l = [] := by
  intro l
  induction l with
  | nil => simp [splitChar]
  | cons a rest ih =>
    cases hs : splitChar c rest with
    | nil => exact absurd hs ih
    | cons x t =>
      by_cases hac : a = c
      · subst hac
        rw [splitChar_cons_eq hs]
        simp
      · rw [splitChar_cons_ne hac hs]
        simp

theorem splitChar_not_mem (c : Char) :
    ∀ (l : List Char), ¬ c ∈ l → splitChar c l = [l]
  | [], _ => rfl
  | a :: rest, h => by
    have ha : ¬ a = c := fun e => h (e ▸ List.mem_cons_self a rest)
    have hrest : ¬ c ∈ rest := fun m => h (List.mem_cons_of_mem _ m)
    have hs : splitChar c rest = [rest] := splitChar_not_mem c rest hrest
    exact splitChar_cons_ne ha hs

theorem splitChar_sep (c : Char) : ∀ (l₁ l₂ : List Char), ¬ c ∈ l₁ →
    splitChar c (l₁ ++ c :: l₂) = l₁ :: splitChar c l₂
  | [], l₂, _ => by
    cases hs : splitChar c l₂ with
    | nil => exact absurd hs (splitChar_ne_nil c l₂)
    | cons x t =>
      simp [List.nil_append, splitChar_cons_eq hs, hs]
  | a :: l₁, l₂, h => by
    have ha : ¬ a = c := fun e => h (e ▸ List.mem_cons_self a l₁)
    have h1 : ¬ c ∈ l₁ := fun m => h (List.mem_cons_of_mem _ m)
    have ih := splitChar_sep c l₁ l₂ h1
    calc splitChar c ((a :: l₁) ++ c :: l₂)
        = splitChar c (a :: (l₁ ++ c :: l₂)) := rfl
      _ = (a :: l₁) :: splitChar c l₂ := splitChar_cons_ne ha ih

theorem pySplit_three (m dd y : String) (hm : charIn m '/' = false)
    (hd : charIn dd '/' = false) (hy : charIn y '/' = false) :
    pySplit '/' (m ++ "/" ++ dd ++ "/" ++ y) = [m, dd, y] := by
  have hm' : ¬ '/' ∈ m.toList := charMem_eq_false hm
  have hd' : ¬ '/' ∈ dd.toList := charMem_eq_false hd
  have hy' : ¬ '/' ∈ y.toList := charMem_eq_false hy
  have hsl : (m ++ "/" ++ dd ++ "/" ++ y).toList =
      m.toList ++ '/' :: (dd.toList ++ '/' :: y.toList) := by
    show (m ++ "/" ++ dd ++ "/" ++ y).data =
      m.data ++ '/' :: (dd.data ++ '/' :: y.data)
    simp [String.data_append]
  unfold pySplit
  rw [hsl, splitChar_sep '/' _ _ hm', splitChar_sep '/' _ _ hd',
    splitChar_not_mem '/' _ hy']
  rfl

end EDI271

namespace EDI271

/-- C1: on the sample transaction, `parse_content` extracts transaction id
`1234567890`, payer `BLUE CROSS BLUE SHIELD`, provider `PROVIDER NAME` with
NPI `1234567890`, subscriber `DOE, JOHN M`, member id `123456789`, group
number `GRP12345`, address `123 MAIN ST, ANYTOWN, CA 90210`, date of birth
`01/01/1990`, gender `Male`, individual deductible `$2,500.00` and individual
deductible met `$500.00`. -/
theorem claim1_sample_extraction :
    (parse_content defaultResponse sampleContent).map (fun r =>
      (r.transaction_id, r.payer_name, r.provider_name, r.provider_npi,
       r.subscriber_name, r.member_id, r.group_number, r.address,
       r.date_of_birth, r.gender, r.individual_deductible,
       r.individual_deductible_met)) =
    Except.ok ("1234567890", "BLUE CROSS BLUE SHIELD", "PROVIDER NAME",
      "1234567890", "DOE, JOHN M", "123456789", "GRP12345",
      "123 MAIN ST, ANYTOWN, CA 90210", "01/01/1990", "Male", "$2,500.00",
      "$500.00") := rfl

/-- C2 fails on the code: the amount `1.2.3` passes the `isdigit` guard
(`numericAmount`) but `float` raises an uncaught `ValueError`, so
`parse_content` does not return a record for the input
`EB*0*1*2*3*4*5*1.2.3` — the claim that every input yields a record without
an exception is contradicted at this input. -/
theorem claim2_numeric_guard_crash :
    numericAmount "1.2.3" = true ∧
    parse_content defaultResponse "EB*0*1*2*3*4*5*1.2.3" =
      Except.error "could not convert string to float: 1.2.3" := ⟨rfl, rfl⟩

/-- C3 as stated is false: a non-empty unparseable date string is stored
unchanged, not as null — `_parse_date` returns `some "20240101"` for
`"20240101"`, and the insert payload carries it through. -/
theorem claim3_counterexample :
    ¬ DatabaseManager.parse_date "20240101" = none ∧
    DatabaseManager.parse_date "20240101" = some "20240101" ∧
    (insertPayload
      { defaultResponse with date_of_birth := "20240101" }).date_of_birth =
      some "20240101" := ⟨by decide, rfl, rfl⟩

/-- C3 amended: before storage the two date fields are passed through
`_parse_date`; an `MM/DD/YYYY` string (slash-free parts of width two) is
rearranged to `YYYY-MM-DD`; the empty string is stored as null; every other
non-empty string is stored unchanged rather than as null. -/
theorem claim3_amended :
    (∀ d : EligibilityResponse,
      (insertPayload d).response_date =
        DatabaseManager.parse_date d.response_date ∧
      (insertPayload d).date_of_birth =
        DatabaseManager.parse_date d.date_of_birth) ∧
    (∀ m dd y : String, m.length = 2 → dd.length = 2 →
      charIn m '/' = false → charIn dd '/' = false → charIn y '/' = false →
      DatabaseManager.parse_date (m ++ "/" ++ dd ++ "/" ++ y) =
        some (y ++ "-" ++ m ++ "-" ++ dd)) ∧
    DatabaseManager.parse_date "" = none ∧
    (∀ s : String, ¬ s = "" → ¬ DatabaseManager.parse_date s = none) := by
  refine ⟨fun d => ⟨rfl, rfl⟩, ?_, rfl, ?_⟩
  · intro m dd y hm2 hd2 hm hd hy
    have hsplit := pySplit_three m dd y hm hd hy
    have hslash : ("/" : String).data = ['/'] := rfl
    have hmem : '/' ∈ (m ++ "/" ++ dd ++ "/" ++ y).toList := by
      show '/' ∈ (m ++ "/" ++ dd ++ "/" ++ y).data
      simp [String.data_append, hslash]
    have hne : ¬ (m ++ "/" ++ dd ++ "/" ++ y) = "" := by
      intro he
      rw [he] at hmem
      simp [String.toList] at hmem
    have hchar : charIn (m ++ "/" ++ dd ++ "/" ++ y) '/' = true :=
      charMem_of_mem hmem
    have hzm : pyZfill 2 m = m := by simp [pyZfill, hm2]
    have hzd : pyZfill 2 dd = dd := by simp [pyZfill, hd2]
    simp [DatabaseManager.parse_date, hne, hchar, hsplit, hzm, hzd]
  · intro s hs
    simp only [DatabaseManager.parse_date]
    rw [if_neg hs]
    split
    · split <;> simp
    · simp

/-- C3 amended, checked at a concrete input: `01/02/1990` is stored as
`1990-01-02`, and the unparseable `notadate` is stored non-null. -/
theorem claim3_witness :
    DatabaseManager.parse_date ("01" ++ "/" ++ "02" ++ "/" ++ "1990") =
      some ("1990" ++ "-" ++ "01" ++ "-" ++ "02") ∧
    ¬ DatabaseManager.parse_date "notadate" = none :=
  ⟨claim3_amended.2.1 "01" "02" "1990" rfl rfl rfl rfl rfl,
   claim3_amended.2.2.2 "notadate" (by decide)⟩

/-- C4 fails on the code: `main` computes return code 1 for a missing input
file and for a query without a configured database, but the `__main__` entry
point calls `main()` without `sys.exit`, so the process exit status is 0 in
every such case. -/
theorem claim4_exit_status_dropped :
    mainReturn {} {} = 1 ∧ processExit {} {} = 0 ∧
    mainReturn { get_member := some "123456789" } {} = 1 ∧
    processExit { get_member := some "123456789" } {} = 0 ∧
    mainReturn { update_status := some ("7", "Inactive") } {} = 1 ∧
    processExit { update_status := some ("7", "Inactive") } {} = 0 :=
  ⟨rfl, rfl, rfl, rfl, rfl, rfl⟩

/-- C9: serializing a record to its nineteen key/value entries and
constructing a record back by key lookup restores every field. -/
theorem claim9_roundtrip (r : EligibilityResponse) : ofKV (toKV r) = r := rfl

end EDI271

namespace EDI271

/-- C5 as stated is false: an `EB` segment whose field 1 is `1` (neither `B`
nor `C`) but whose field 4 is `A3` with numeric field 7 still sets the
preventative-care copay, through the first copay check of source line 329. -/
theorem claim5_counterexample :
    ¬ ("1" = "B" ∨ "1" = "C") ∧
    (parse_content defaultResponse "EB*1*X*Y*A3*Z*W*100").map
      (fun r => r.preventative_care_copay) = Except.ok "$100.00" :=
  ⟨by decide, rfl⟩

/-- C5 amended: for an `EB` segment processed from a record with the copay
still unset, the copay field is set exactly when field 7 exists and passes the
numeric guard and either field 4 is `A3` or `98` or field 5 contains
`PREVENTIVE` case-insensitively; the `B`/`C` test of the second copay block is
subsumed by this condition and imposes no extra requirement. -/
theorem claim5_amended {r r' : EligibilityResponse} {es : List String}
    (ht : tagOf es = "EB") (hc : r.preventative_care_copay = "")
    (h : processSegment r es = Except.ok r') :
    (¬ r'.preventative_care_copay = "" ↔
      (7 < es.length ∧ numericAmount (es.getD 7 "") = true ∧
        (es.getD 4 "" = "A3" ∨ es.getD 4 "" = "98" ∨
          strContains (pyUpper (es.getD 5 "")) "PREVENTIVE" = true))) := by
  have hd : processSegment r es = stepEB r es := by
    simp [processSegment, ht]
  rw [hd] at h
  unfold stepEB at h
  split at h
  next e heq => exact Except.noConfusion h
  next r2 heq =>
    split at h
    next e2 heq2 => exact Except.noConfusion h
    next r3 heq3 =>
      injection h with h
      subst h
      have hplan : (stepEBPlan r es).preventative_care_copay = "" := by
        rw [stepEBPlan_copay]; exact hc
      have hA := stepEBAmounts_copay heq hplan
      have hC := stepEBCopay2_copay heq3
      rw [stepEBMentalHealth_copay]
      by_cases h2 : r2.preventative_care_copay = ""
      · have hnA : ¬ (7 < es.length ∧ numericAmount (es.getD 7 "") = true ∧
            copayCond1 es = true) := fun ha => (hA.mpr ha) h2
        rw [hC.2 h2]
        constructor
        · rintro ⟨-, -, -, ha45, h7, hn⟩
          exact absurd ⟨h7, hn, (copayCond1_disj h7).mpr (by tauto)⟩ hnA
        · rintro ⟨h7, hn, hdisj⟩
          exact absurd ⟨h7, hn, (copayCond1_disj h7).mpr hdisj⟩ hnA
      · have hA' := hA.mp h2
        rw [hC.1 h2]
        exact iff_of_true h2 ⟨hA'.1, hA'.2.1, (copayCond1_disj hA'.1).mp hA'.2.2⟩

/-- C5 amended, checked at a concrete `EB` segment with field 1 equal to `1`
and field 4 equal to `A3`: the copay is set. -/
theorem claim5_witness :
    defaultResponse.preventative_care_copay = "" ∧
    tagOf c5es = "EB" ∧
    processSegment defaultResponse c5es = Except.ok c5after ∧
    (¬ c5after.preventative_care_copay = "" ↔
      (7 < c5es.length ∧ numericAmount (c5es.getD 7 "") = true ∧
        (c5es.getD 4 "" = "A3" ∨ c5es.getD 4 "" = "98" ∨
          strContains (pyUpper (c5es.getD 5 "")) "PREVENTIVE" = true))) :=
  ⟨rfl, rfl, rfl, @claim5_amended defaultResponse c5after c5es rfl rfl rfl⟩

/-- C6: a deductible field already populated is never overwritten by a later
segment of the same parse — `parse_content` preserves nonempty
`individual_deductible` and `individual_deductible_met` values. -/
theorem claim6_first_wins (r : EligibilityResponse) (c : String)
    (r' : EligibilityResponse) (h : parse_content r c = Except.ok r') :
    (¬ r.individual_deductible = "" →
      r'.individual_deductible = r.individual_deductible) ∧
    (¬ r.individual_deductible_met = "" →
      r'.individual_deductible_met = r.individual_deductible_met) :=
  runSegments_keeps (segmentsOf c) r r' h

/-- C6 checked at a concrete input: a record with deductible `$1.00` parses a
matching `EB` deductible segment without the value being overwritten. -/
theorem claim6_witness :
    ¬ c6start.individual_deductible = "" ∧
    parse_content c6start "EB*1*IND*X*Y*Z*22*999" = Except.ok c6start ∧
    c6start.individual_deductible = c6start.individual_deductible :=
  ⟨by decide, rfl,
   (claim6_first_wins c6start "EB*1*IND*X*Y*Z*22*999" c6start rfl).1 (by decide)⟩

/-- C7: a `BHT` segment with an 8-character field 4, and a `DMG` segment with
an 8-character field 2, store the date reformatted from `YYYYMMDD` to
`MM/DD/YYYY`; a date string of any other length leaves the field at its
previous value. -/
theorem claim7_date_reformat {r r' : EligibilityResponse} {es : List String}
    (h : processSegment r es = Except.ok r') :
    (tagOf es = "BHT" → 4 < es.length →
      r'.response_date = (if (es.getD 4 "").length = 8
        then reformatDate8 (es.getD 4 "") else r.response_date)) ∧
    (tagOf es = "DMG" → 2 < es.length →
      r'.date_of_birth = (if (es.getD 2 "").length = 8
        then reformatDate8 (es.getD 2 "") else r.date_of_birth)) ∧
    (∀ y m d : String, y.length = 4 → m.length = 2 → d.length = 2 →
      reformatDate8 (y ++ m ++ d) = m ++ "/" ++ d ++ "/" ++ y) := by
  refine ⟨?_, ?_, ?_⟩
  · intro ht hlen
    have hd : processSegment r es = Except.ok (stepBHT r es) := by
      simp [processSegment, ht, hlen]
    rw [hd] at h
    injection h with h
    subst h
    simp only [stepBHT]
    split <;> rfl
  · intro ht hlen
    have hd : processSegment r es = Except.ok (stepDMG r es) := by
      simp [processSegment, ht]
    rw [hd] at h
    injection h with h
    subst h
    simp only [stepDMG]
    repeat' split
    all_goals simp_all
  · intro y m d hy hm hd
    have hy' : y.toList.length = 4 := hy
    have hm' : m.toList.length = 2 := hm
    have hd' : d.toList.length = 2 := hd
    have hL : (y ++ m ++ d).toList = y.toList ++ (m.toList ++ d.toList) := by
      show (y ++ m ++ d).data = y.data ++ (m.data ++ d.data)
      simp [String.data_append]
    have t1 : (y.toList ++ (m.toList ++ d.toList)).take 4 = y.toList := by
      rw [← hy']; exact List.take_left _ _
    have t2 : (y.toList ++ (m.toList ++ d.toList)).drop 4 =
        m.toList ++ d.toList := by
      rw [← hy']; exact List.drop_left _ _
    have t3 : (m.toList ++ d.toList).take 2 = m.toList := by
      rw [← hm']; exact List.take_left _ _
    have t4 : (y.toList ++ (m.toList ++ d.toList)).drop 6 = d.toList := by
      rw [show y.toList ++ (m.toList ++ d.toList) =
        (y.toList ++ m.toList) ++ d.toList from (List.append_assoc _ _ _).symm]
      have hlen6 : (y.toList ++ m.toList).length = 6 := by
        rw [List.length_append, hy', hm']
      rw [← hlen6]
      exact List.drop_left _ _
    have t5 : d.toList.take 2 = d.toList := by
      rw [← hd']; simp
    simp only [reformatDate8]
    rw [hL, t2, t3, t4, t5, t1]
    rfl

/-- C7 checked at a concrete `BHT` segment carrying `20240801`, reformatted to
`08/01/2024`. -/
theorem claim7_witness :
    processSegment defaultResponse c7es = Except.ok c7after ∧
    c7after.response_date = (if (c7es.getD 4 "").length = 8
      then reformatDate8 (c7es.getD 4 "") else defaultResponse.response_date) ∧
    reformatDate8 ("2024" ++ "08" ++ "01") = "08" ++ "/" ++ "01" ++ "/" ++ "2024" :=
  ⟨rfl,
   (@claim7_date_reformat defaultResponse c7after c7es rfl).1 rfl (by decide),
   (@claim7_date_reformat defaultResponse c7after c7es rfl).2.2 "2024" "08" "01"
     rfl rfl rfl⟩

end EDI271

namespace EDI271

/-- C8 as stated is false in its exit-status part: an insert failure during a
save-enabled parse is logged (one attempt, `errorLogged`) but swallowed — the
parsed record is still returned, `main` returns 0, and the process exits 0
rather than with a non-zero status. -/
theorem claim8_counterexample :
    (parse_file defaultResponse "ST*271*99" true true (Except.error ())).dbCalls = 1 ∧
    (parse_file defaultResponse "ST*271*99" true true
      (Except.error ())).errorLogged = true ∧
    (parse_file defaultResponse "ST*271*99" true true (Except.error ())).result =
      Except.ok { defaultResponse with transaction_id := "99" } ∧
    mainReturn
      { input_file := some "claims.edi", db_host := some "h", save_to_db := true }
      { dbInitOk := true, fileContent := some "ST*271*99",
        insertResult := Except.error () } = 0 ∧
    processExit
      { input_file := some "claims.edi", db_host := some "h", save_to_db := true }
      { dbInitOk := true, fileContent := some "ST*271*99",
        insertResult := Except.error () } = 0 :=
  ⟨rfl, rfl, rfl, rfl, rfl⟩

/-- C8 amended: each persistence operation is attempted at most once (no
retry); a failing operation is caught and logged, and is reported to the
caller as a degraded result (record still returned, absent row, `false`)
rather than an exception; the process outcome of a parse run is 0 even when
the save failed. -/
theorem claim8_amended :
    (∀ (r : EligibilityResponse) (content : String) (save hasDb : Bool)
        (ins : Except Unit Nat),
      (parse_file r content save hasDb ins).dbCalls ≤ 1 ∧
      ((parse_file r content save hasDb ins).errorLogged = true ↔
        (save = true ∧ hasDb = true ∧ ins = Except.error () ∧
          ∃ res, parse_content r (pyStrip content) = Except.ok res)) ∧
      (∀ res, parse_content r (pyStrip content) = Except.ok res →
        (parse_file r content save hasDb ins).result = Except.ok res)) ∧
    (∀ (hasDb : Bool) (fetch : Except Unit (Option RowData)),
      (get_member_eligibility hasDb fetch).dbCalls ≤ 1 ∧
      (hasDb = true → fetch = Except.error () →
        (get_member_eligibility hasDb fetch).errorLogged = true ∧
        (get_member_eligibility hasDb fetch).result = none)) ∧
    (∀ (hasDb : Bool) (upd : Except Unit Bool),
      (update_member_status hasDb upd).dbCalls ≤ 1 ∧
      (hasDb = true → upd = Except.error () →
        (update_member_status hasDb upd).errorLogged = true ∧
        (update_member_status hasDb upd).result = false)) ∧
    (∀ (a : MainArgs) (env : EnvModel),
      a.get_member = none → a.update_status = none →
      ∀ f, a.input_file = some f →
      ∀ content, env.fileContent = some content →
      ∀ res, parse_content defaultResponse (pyStrip content) = Except.ok res →
      mainReturn a env = 0 ∧ processExit a env = 0) := by
  refine ⟨?_, ?_, ?_, ?_⟩
  · intro r content save hasDb ins
    unfold parse_file
    cases hp : parse_content r (pyStrip content) with
    | error e =>
      refine ⟨by simp, by simp, ?_⟩
      intro res hres
      exact Except.noConfusion hres
    | ok res0 =>
      cases save <;> cases hasDb <;> rcases ins with u | n <;> simp
  · intro hasDb fetch
    cases hasDb <;> rcases fetch with u | v <;> simp [get_member_eligibility]
  · intro hasDb upd
    cases hasDb <;> rcases upd with u | b <;> simp [update_member_status]
  · intro a env hg hu f hf content hc res hres
    constructor
    · rcases hins : env.insertResult with u | n <;>
        simp [mainReturn, hg, hu, hf, hc, parse_file, hres, hins, apply_ite]
    · rfl

/-- C10: `parse_content` reads and mutates the one record held by the
instance: a second call continues from the record the first call produced, and
every field whose rule fires in no segment of the second input keeps the value
the first call gave it. -/
theorem claim10_instance_state {c1 c2 : String} {r1 r2 : EligibilityResponse}
    {p1 p2 : SessionState}
    (h1 : freshSession.parseContent c1 = Except.ok (r1, p1))
    (h2 : p1.parseContent c2 = Except.ok (r2, p2)) :
    p1.data = r1 ∧ p2.data = r2 ∧
    parse_content r1 c2 = Except.ok r2 ∧
    ListFrameFacts (segmentsOf c2) r1 r2 := by
  unfold SessionState.parseContent at h1 h2
  cases hp1 : parse_content freshSession.data c1 with
  | error e =>
    rw [hp1] at h1
    simp [Except.map] at h1
  | ok x =>
    rw [hp1] at h1
    simp only [Except.map, Except.ok.injEq, Prod.mk.injEq] at h1
    obtain ⟨hx, hp⟩ := h1
    subst hx
    subst hp
    cases hp2 : parse_content (SessionState.mk x).data c2 with
    | error e =>
      rw [hp2] at h2
      simp [Except.map] at h2
    | ok z =>
      rw [hp2] at h2
      simp only [Except.map, Except.ok.injEq, Prod.mk.injEq] at h2
      obtain ⟨hz, hq⟩ := h2
      subst hz
      subst hq
      exact ⟨rfl, rfl, rfl, runSegments_frame (segmentsOf c2) _ _ hp2⟩

/-- C10 checked at a concrete pair of inputs: the transaction id set by the
first call survives a second call whose input contains no `ST` segment. -/
theorem claim10_witness :
    freshSession.parseContent "ST*271*ABC" = Except.ok (c10r1, ⟨c10r1⟩) ∧
    SessionState.parseContent ⟨c10r1⟩ "N3*5 MAIN" = Except.ok (c10r2, ⟨c10r2⟩) ∧
    parse_content c10r1 "N3*5 MAIN" = Except.ok c10r2 ∧
    c10r2.transaction_id = c10r1.transaction_id := by
  have h := @claim10_instance_state "ST*271*ABC" "N3*5 MAIN" c10r1 c10r2
    ⟨c10r1⟩ ⟨c10r2⟩ rfl rfl
  exact ⟨rfl, rfl, h.2.2.1, h.2.2.2.1 (by decide)⟩

end EDI271

namespace EDI271

/-- C8 amended, checked at concrete failures: a failing fetch makes one call,
logs the error and reports an absent row; a parse run whose insert fails still
returns 0 and the process exits 0. -/
theorem claim8_witness :
    (get_member_eligibility true (Except.error ())).dbCalls ≤ 1 ∧
    (get_member_eligibility true (Except.error ())).errorLogged = true ∧
    (get_member_eligibility true (Except.error ())).result = none ∧
    mainReturn c8args c8env = 0 ∧ processExit c8args c8env = 0 :=
  ⟨(claim8_amended.2.1 true (Except.error ())).1,
   ((claim8_amended.2.1 true (Except.error ())).2 rfl rfl).1,
   ((claim8_amended.2.1 true (Except.error ())).2 rfl rfl).2,
   (claim8_amended.2.2.2 c8args c8env rfl rfl "claims.edi" rfl "ST*271*99" rfl
     c8res rfl).1,
   (claim8_amended.2.2.2 c8args c8env rfl rfl "claims.edi" rfl "ST*271*99" rfl
     c8res rfl).2⟩

end EDI271
